import Mathlib

/-!
Verification of the BuddyBlocks (Focus Flow) core logic.

The decomposition engine (`src/utils/mock_ai.py`, `parse_journal_mock` and
`get_coach_message_mock`) and the focus-session timer embedded in
`src/app.py` (`display_focus_session`, `display_task_grid_card`) are
shallowly embedded here.  Python strings are modelled as `List Char`
(so that every definition evaluates by kernel reduction), wall-clock
times and Python floats as `ℚ`, and every call to the `random` module as
an explicit oracle argument whose admissible range appears as a
hypothesis of the corresponding theorem.
-/

/-! ### Character-list utilities (models of Python `str` operations) -/

/-- Model of Python `str.strip()`: drop leading and trailing whitespace.
Python strips any Unicode whitespace; `Char.isWhitespace` covers the
characters occurring in this code base (space, tab, CR, LF). -/
def trimChars (cs : List Char) : List Char :=
  ((cs.dropWhile Char.isWhitespace).reverse.dropWhile Char.isWhitespace).reverse

/-- The sentence delimiters of `re.split(r'[.!?\n]+', journal_text)`
(`src/utils/mock_ai.py:48`).  Splitting on single delimiter characters and
later discarding short pieces is equivalent to splitting on maximal runs,
because the pieces created between two adjacent delimiters are empty. -/
def isSentenceDelim (c : Char) : Bool :=
  c = '.' || c = '!' || c = '?' || c = '\n'

/-- Model of Python `str.split()` (split on whitespace, dropping empty
pieces), used for `sentence.split()` in `src/utils/mock_ai.py:73`. -/
def wordsOf (cs : List Char) : List (List Char) :=
  (cs.splitOnP Char.isWhitespace).filter (fun w => decide (w ≠ []))

/-- Model of `' '.join(ws)`. -/
def joinWords : List (List Char) → List Char
  | [] => []
  | [w] => w
  | w :: rest => w ++ ' ' :: joinWords rest

/-- Case folding used to model `re.IGNORECASE` and `str.lower()`. -/
def lowerChars (cs : List Char) : List Char := cs.map Char.toLower

/-! ### Focus-session timer (state machine of `src/app.py`) -/

/-- The timer fields of the Streamlit session state
(`st.session_state.time_remaining`, `.session_start`, `.timer_running`),
initialised in `src/utils/models.py` and mutated only in `src/app.py`. -/
structure TimerState where
  time_remaining : ℚ
  session_start : ℚ
  timer_running : Bool
deriving DecidableEq

/-- The live remaining-time computation of `src/app.py:186-191`:
`remaining = max(0, time_remaining - (now - session_start))` while the
timer runs, and the stored `time_remaining` otherwise. -/
def currentRemaining (st : TimerState) (now : ℚ) : ℚ :=
  if st.timer_running then max 0 (st.time_remaining - (now - st.session_start))
  else st.time_remaining

/-- The same read, paired with the session state it leaves behind: the code
block `src/app.py:186-191` assigns no session-state field, which the second
component makes explicit. -/
def readRemaining (st : TimerState) (now : ℚ) : ℚ × TimerState :=
  if st.timer_running then (max 0 (st.time_remaining - (now - st.session_start)), st)
  else (st.time_remaining, st)

/-- Starting a focus session (`src/app.py:122-124`):
`time_remaining = estimated_duration * 60`, `session_start = now`,
`timer_running = True`.  Earlier timer state is overwritten wholesale. -/
def startTimer (estimated_duration : ℕ) (now : ℚ) : TimerState :=
  { time_remaining := (estimated_duration : ℚ) * 60
    session_start := now
    timer_running := true }

/-- The Pause button handler (`src/app.py:236-239`). -/
def pauseTimer (st : TimerState) (now : ℚ) : TimerState :=
  { st with
    timer_running := false
    time_remaining := max 0 (st.time_remaining - (now - st.session_start)) }

/-- The Resume button handler (`src/app.py:245-246`). -/
def resumeTimer (st : TimerState) (now : ℚ) : TimerState :=
  { st with timer_running := true, session_start := now }

/-- Guard under which the Resume button is rendered (`src/app.py:243`):
not running, and the remaining time computed at `src/app.py:186-191` is
positive. -/
def resumeEnabled (st : TimerState) (now : ℚ) : Bool :=
  !st.timer_running && decide (0 < currentRemaining st now)

/-- Outcome of the Complete button handler (`src/app.py:250-294`): the
task status written at line 252, the statistics value
`actual_time = (estimated_duration * 60 - remaining) // 60` of line 255
(Python float floor division, hence `Int.floor`), and the discarded timer
(`current_task = None`, lines 283-286). -/
structure CompleteResult where
  actual_minutes : ℤ
  task_status : List Char
  timer : Option TimerState
deriving DecidableEq

/-- The Complete button handler (`src/app.py:250-294`); `remaining` is the
live value computed at `src/app.py:186-191` in the same render pass. -/
def completeAction (estimated_duration : ℕ) (st : TimerState) (now : ℚ) : CompleteResult :=
  let remaining := currentRemaining st now
  { actual_minutes := ⌊((estimated_duration : ℚ) * 60 - remaining) / 60⌋
    task_status := "completed".data
    timer := none }

/-- The automatic expiry branch (`src/app.py:302-305`): when the live
remaining time is `≤ 0` while the timer is still flagged running, only
`timer_running` is cleared; `time_remaining` and `session_start` are not
written. -/
def expireCheck (st : TimerState) (now : ℚ) : TimerState :=
  if currentRemaining st now ≤ 0 ∧ st.timer_running = true then
    { st with timer_running := false }
  else st

/-- The progress fraction of `src/app.py:199-201`:
`1 - remaining / total` guarded by `total > 0` (else `1.0`), clamped to
`[0, 1]`. -/
def progressValue (estimated_duration : ℕ) (st : TimerState) (now : ℚ) : ℚ :=
  let remaining := currentRemaining st now
  let total_duration : ℚ := (estimated_duration : ℚ) * 60
  let progress := if total_duration > 0 then 1 - remaining / total_duration else 1
  max 0 (min 1 progress)

/-- Whether a start/continue button is rendered for a task
(`src/app.py:108`): only when the status is not `completed`. -/
def startButtonShown (status : List Char) : Bool :=
  decide (status ≠ "completed".data)

/-- The button label of `src/app.py:110`. -/
def startButtonLabel (status : List Char) : List Char :=
  if status = "pending".data then "▶️ Start".data else "▶️ Continue".data

/-- The start/continue button handler (`src/app.py:115-124`): sets the
task status to `in_progress` and re-initialises the timer from the task
duration; the prior timer state is ignored and overwritten. -/
def startTaskAction (prior : TimerState) (estimated_duration : ℕ) (now : ℚ) :
    List Char × TimerState :=
  ("in_progress".data, startTimer estimated_duration now)

/-! ### Timer theorems -/

/-- C2: the timer read of `src/app.py:186-191` mutates no timer state,
two reads at the same instant with no transition in between agree, and the
value is `max 0 (remaining - (now - anchor))` while running and the stored
`time_remaining` otherwise. -/
theorem timer_read_pure_idempotent (st : TimerState) (now : ℚ) :
    (readRemaining st now).2 = st ∧
    (readRemaining (readRemaining st now).2 now).1 = (readRemaining st now).1 ∧
    (readRemaining st now).1 = currentRemaining st now ∧
    currentRemaining st now =
      (if st.timer_running then max 0 (st.time_remaining - (now - st.session_start))
       else st.time_remaining) := by
  unfold readRemaining currentRemaining
  by_cases h : st.timer_running <;> simp [h]

/-- C3: pausing a timer of `D` minutes after `e` seconds of running stores
`max 0 (D*60 - e)`; resuming at any later instant `t1` (permitted exactly
when the stored remaining time is positive) only rewrites the anchor time,
so both the stored and the live remaining time right after the resume are
still `max 0 (D*60 - e)`. -/
theorem pause_resume_roundtrip (D : ℕ) (t0 e t1 : ℚ)
    (hguard : 0 < (pauseTimer (startTimer D t0) (t0 + e)).time_remaining) :
    (pauseTimer (startTimer D t0) (t0 + e)).time_remaining = max 0 ((D : ℚ) * 60 - e) ∧
    resumeEnabled (pauseTimer (startTimer D t0) (t0 + e)) t1 = true ∧
    (resumeTimer (pauseTimer (startTimer D t0) (t0 + e)) t1).timer_running = true ∧
    (resumeTimer (pauseTimer (startTimer D t0) (t0 + e)) t1).session_start = t1 ∧
    (resumeTimer (pauseTimer (startTimer D t0) (t0 + e)) t1).time_remaining =
      max 0 ((D : ℚ) * 60 - e) ∧
    currentRemaining (resumeTimer (pauseTimer (startTimer D t0) (t0 + e)) t1) t1 =
      max 0 ((D : ℚ) * 60 - e) := by
  have he : t0 + e - t0 = e := by ring
  have hrem : (pauseTimer (startTimer D t0) (t0 + e)).time_remaining
      = max 0 ((D : ℚ) * 60 - e) := by
    simp [pauseTimer, startTimer, he]
  refine ⟨hrem, ?_, rfl, rfl, hrem, ?_⟩
  · have hcr : currentRemaining (pauseTimer (startTimer D t0) (t0 + e)) t1
        = (pauseTimer (startTimer D t0) (t0 + e)).time_remaining := rfl
    have hoff : (pauseTimer (startTimer D t0) (t0 + e)).timer_running = false := rfl
    unfold resumeEnabled
    rw [hcr, hoff]
    simpa using hguard
  · simp only [currentRemaining, resumeTimer, pauseTimer, startTimer]
    simp [he, max_max_max_comm]

/-- C3 witness: a 60-minute timer started at time 0, paused after 600
seconds (10 simulated minutes), resumed much later at `t1 = 99999`, shows
3000 seconds = 50 minutes remaining. -/
theorem pause_resume_roundtrip_witness :
    (pauseTimer (startTimer 60 0) (0 + 600)).time_remaining = max 0 ((60 : ℚ) * 60 - 600) ∧
    resumeEnabled (pauseTimer (startTimer 60 0) (0 + 600)) 99999 = true ∧
    (resumeTimer (pauseTimer (startTimer 60 0) (0 + 600)) 99999).timer_running = true ∧
    (resumeTimer (pauseTimer (startTimer 60 0) (0 + 600)) 99999).session_start = 99999 ∧
    (resumeTimer (pauseTimer (startTimer 60 0) (0 + 600)) 99999).time_remaining =
      max 0 ((60 : ℚ) * 60 - 600) ∧
    currentRemaining (resumeTimer (pauseTimer (startTimer 60 0) (0 + 600)) 99999) 99999 =
      max 0 ((60 : ℚ) * 60 - 600) :=
  pause_resume_roundtrip 60 0 600 99999 (by norm_num [pauseTimer, startTimer])

/-- C4: explicit completion from any timer state sets the task status to
`completed`, discards the timer, and computes
`actual_minutes = ⌊(D*60 - remaining)/60⌋` with the remaining time
recomputed live; completing a 30-minute session immediately after its
start yields `actual_minutes = 0`. -/
theorem complete_action_spec (D : ℕ) (st : TimerState) (now t : ℚ) :
    (completeAction D st now).task_status = "completed".data ∧
    (completeAction D st now).timer = none ∧
    (completeAction D st now).actual_minutes =
      ⌊((D : ℚ) * 60 - currentRemaining st now) / 60⌋ ∧
    (completeAction 30 (startTimer 30 t) t).actual_minutes = 0 ∧
    (completeAction 30 (startTimer 30 t) t).task_status = "completed".data := by
  refine ⟨rfl, rfl, rfl, ?_, rfl⟩
  have h : currentRemaining (startTimer 30 t) t = (30 : ℚ) * 60 := by
    simp [currentRemaining, startTimer]
  simp [completeAction, h]

/-- C5: when the countdown expires while running, the transition of
`src/app.py:302-305` clears only the running flag; the stored
`time_remaining` survives, every later read returns that stale value, the
resume guard becomes satisfiable again whenever the stale value is
positive, and completing a never-paused expired session yields
`actual_minutes = 0`. -/
theorem expiry_keeps_stale_remaining (st : TimerState) (now : ℚ)
    (hrun : st.timer_running = true) (hexp : currentRemaining st now ≤ 0) :
    (expireCheck st now).timer_running = false ∧
    (expireCheck st now).time_remaining = st.time_remaining ∧
    (expireCheck st now).session_start = st.session_start ∧
    (∀ t, currentRemaining (expireCheck st now) t = st.time_remaining) ∧
    (0 < st.time_remaining → ∀ t, resumeEnabled (expireCheck st now) t = true) ∧
    (∀ (D : ℕ) (t2 : ℚ), st.time_remaining = (D : ℚ) * 60 →
      (completeAction D (expireCheck st now) t2).actual_minutes = 0) := by
  have hif : expireCheck st now = { st with timer_running := false } := by
    simp [expireCheck, hexp, hrun]
  refine ⟨by simp [hif], by simp [hif], by simp [hif], ?_, ?_, ?_⟩
  · intro t; simp [hif, currentRemaining]
  · intro hpos t
    simp [hif, resumeEnabled, currentRemaining, hpos]
  · intro D t2 hD
    simp [completeAction, hif, currentRemaining, hD]

/-- C5 witness: a 30-minute session started at time 0 and observed at time
1800 has live remaining 0 while still running; after the expiry transition
the stored remaining is still 1800 seconds, a later read at time 2500
returns 1800, the resume button is enabled again, and completing then
yields 0 actual minutes. -/
theorem expiry_keeps_stale_remaining_witness :
    (expireCheck (startTimer 30 0) 1800).timer_running = false ∧
    (expireCheck (startTimer 30 0) 1800).time_remaining = (startTimer 30 0).time_remaining ∧
    currentRemaining (expireCheck (startTimer 30 0) 1800) 2500 =
      (startTimer 30 0).time_remaining ∧
    resumeEnabled (expireCheck (startTimer 30 0) 1800) 2500 = true ∧
    (completeAction 30 (expireCheck (startTimer 30 0) 1800) 2500).actual_minutes = 0 := by
  have h := expiry_keeps_stale_remaining (startTimer 30 0) 1800 rfl
    (by norm_num [currentRemaining, startTimer])
  exact ⟨h.1, h.2.1, h.2.2.2.1 2500,
    h.2.2.2.2.1 (by norm_num [startTimer]) 2500,
    h.2.2.2.2.2 30 2500 (by norm_num [startTimer])⟩

/-- C8: the progress fraction is always within `[0, 1]`, equals the
clamped `1 - remaining/total` whenever the total duration is positive, and
is defined as `1` for a zero-duration task (no division occurs). -/
theorem progress_clamped_spec (D : ℕ) (st : TimerState) (now : ℚ) :
    0 ≤ progressValue D st now ∧
    progressValue D st now ≤ 1 ∧
    progressValue 0 st now = 1 ∧
    (0 < D → progressValue D st now =
      max 0 (min 1 (1 - currentRemaining st now / ((D : ℚ) * 60)))) := by
  refine ⟨le_max_left _ _, ?_, ?_, ?_⟩
  · exact max_le (by norm_num) (min_le_left _ _)
  · simp [progressValue]
  · intro hD
    have htot : (0 : ℚ) < (D : ℚ) * 60 := by positivity
    simp [progressValue, htot]

/-- C8 witness: a 30-minute session read halfway through shows the clamped
formula value, and a zero-duration session shows progress `1`. -/
theorem progress_clamped_spec_witness :
    0 ≤ progressValue 30 (startTimer 30 0) 900 ∧
    progressValue 30 (startTimer 30 0) 900 ≤ 1 ∧
    progressValue 0 (startTimer 0 0) 5 = 1 ∧
    progressValue 30 (startTimer 30 0) 900 =
      max 0 (min 1 (1 - currentRemaining (startTimer 30 0) 900 / ((30 : ℚ) * 60))) := by
  have h := progress_clamped_spec 30 (startTimer 30 0) 900
  have h0 := progress_clamped_spec 0 (startTimer 0 0) 5
  exact ⟨h.1, h.2.1, h0.2.2.1, h.2.2.2 (by norm_num)⟩

/-- C10: the start/continue action is rendered exactly for non-completed
tasks (labelled Start for pending, Continue for in-progress), always sets
the task status to `in_progress`, and re-initialises the timer from
scratch — full duration, fresh anchor, running — independently of any
prior timer state. -/
theorem start_action_reinitialises (prior prior2 : TimerState)
    (status : List Char) (D : ℕ) (now : ℚ)
    (hnc : status ≠ "completed".data) :
    startButtonShown status = true ∧
    startButtonShown "completed".data = false ∧
    startButtonLabel "pending".data = "▶️ Start".data ∧
    startButtonLabel "in_progress".data = "▶️ Continue".data ∧
    (startTaskAction prior D now).1 = "in_progress".data ∧
    (startTaskAction prior D now).2 = startTimer D now ∧
    startTaskAction prior2 D now = startTaskAction prior D now ∧
    (startTaskAction prior D now).2.time_remaining = (D : ℚ) * 60 ∧
    (startTaskAction prior D now).2.session_start = now ∧
    (startTaskAction prior D now).2.timer_running = true := by
  refine ⟨?_, by decide, by decide, by decide, rfl, rfl, rfl, rfl, rfl, rfl⟩
  simp [startButtonShown, hnc]

/-- C10 witness: starting an in-progress task of 45 minutes at time 7,
with two different stale timer states, yields the same freshly
re-initialised running timer. -/
theorem start_action_reinitialises_witness :
    startButtonShown "in_progress".data = true ∧
    startButtonShown "completed".data = false ∧
    startButtonLabel "pending".data = "▶️ Start".data ∧
    startButtonLabel "in_progress".data = "▶️ Continue".data ∧
    (startTaskAction ⟨123, 4, false⟩ 45 7).1 = "in_progress".data ∧
    (startTaskAction ⟨123, 4, false⟩ 45 7).2 = startTimer 45 7 ∧
    startTaskAction ⟨5, 6, true⟩ 45 7 = startTaskAction ⟨123, 4, false⟩ 45 7 ∧
    (startTaskAction ⟨123, 4, false⟩ 45 7).2.time_remaining = (45 : ℚ) * 60 ∧
    (startTaskAction ⟨123, 4, false⟩ 45 7).2.session_start = 7 ∧
    (startTaskAction ⟨123, 4, false⟩ 45 7).2.timer_running = true :=
  start_action_reinitialises ⟨123, 4, false⟩ ⟨5, 6, true⟩ "in_progress".data 45 7 (by decide)

/-! ### Decomposition engine (`parse_journal_mock`, `src/utils/mock_ai.py`) -/

/-- Candidate statements (`src/utils/mock_ai.py:48-51`): split on the
delimiters, strip each piece, keep pieces whose stripped length exceeds
10 characters. -/
def sentencesOf (text : List Char) : List (List Char) :=
  ((text.splitOnP isSentenceDelim).map trimChars).filter (fun s => decide (10 < s.length))

/-- The leading filler phrases of the regular expression at
`src/utils/mock_ai.py:79-84`, in alternation order. -/
def fillerPhrases : List (List Char) :=
  ["I need to".data, "I have to".data, "I must".data, "I should".data,
   "I will".data, "I want to".data, "I am going to".data, "I plan to".data]

/-- Whether the anchored, case-insensitive pattern `filler` followed by at
least one whitespace character matches at the start of `cs`
(one alternative of the regex at `src/utils/mock_ai.py:80`). -/
def fillerMatch (f : List Char) (cs : List Char) : Bool :=
  (lowerChars f).isPrefixOf (lowerChars cs) &&
  (match cs.drop f.length with
   | c :: _ => c.isWhitespace
   | [] => false)

/-- The substitution `re.sub(r'^(...)\s+', '', title, flags=IGNORECASE)`:
the first alternative that matches at the start is removed together with
the following whitespace run; otherwise the text is unchanged. -/
def stripLeadingFiller : List (List Char) → List Char → List Char
  | [], cs => cs
  | f :: fs, cs =>
    if fillerMatch f cs then (cs.drop f.length).dropWhile Char.isWhitespace
    else stripLeadingFiller fs cs

/-- Capitalisation of the first letter (`src/utils/mock_ai.py:87-88`);
for a one-character title, `title.upper()` also uppercases just that
character. -/
def capitalizeChars : List Char → List Char
  | [] => []
  | c :: rest => c.toUpper :: rest

/-- The truncation marker appended at `src/utils/mock_ai.py:91-92`. -/
def ellipsisMarker : List Char := "...".data

/-- The conditional append of `src/utils/mock_ai.py:91-92`. -/
def appendEllipsisIf (truncated : Bool) (t : List Char) : List Char :=
  if truncated && !(ellipsisMarker.isSuffixOf t) then t ++ ellipsisMarker else t

/-- Title synthesis for one statement (`src/utils/mock_ai.py:72-92`),
given the already clamped word count `titleLength`. -/
def mkTitle (words : List (List Char)) (titleLength : ℕ) : List Char :=
  let title := joinWords (words.take titleLength)
  let t := capitalizeChars (stripLeadingFiller fillerPhrases title)
  appendEllipsisIf (decide (titleLength < words.length)) t

/-- The duration pool of `src/utils/mock_ai.py:98`. -/
def durationOptions : List ℕ := [30, 45, 60, 75, 90, 120]

/-- The stop list of `src/utils/mock_ai.py:108-109`. -/
def keyWordStopList : List (List Char) :=
  ["need".data, "have".data, "must".data, "should".data,
   "will".data, "want".data, "going".data, "plan".data]

/-- Key-concept extraction (`src/utils/mock_ai.py:108-109`): words longer
than 4 characters whose lowercase form is not in the stop list. -/
def keyWordsOf (words : List (List Char)) : List (List Char) :=
  words.filter (fun w => decide (4 < w.length) && !(keyWordStopList.contains (lowerChars w)))

/-- The fixed parts of the contextual f-string templates
(`src/utils/mock_ai.py:115-124`). -/
def contextualSubtaskStems : List (List Char) :=
  ["Research and gather information about ".data,
   "Create initial outline or plan for ".data,
   "Draft the main content for ".data,
   "Review and refine ".data,
   "Get feedback on ".data,
   "Make final revisions to ".data,
   "Prepare supporting materials for ".data,
   "Test and validate ".data]

/-- The contextual subtask templates (`src/utils/mock_ai.py:115-124`). -/
def contextualTemplates (context : List Char) : List (List Char) :=
  contextualSubtaskStems.map (fun stem => stem ++ context)

/-- The generic subtask templates (`src/utils/mock_ai.py:127-138`). -/
def genericTemplates : List (List Char) :=
  ["Research and gather necessary information".data,
   "Create initial draft or outline".data,
   "Review and refine the content".data,
   "Get stakeholder feedback".data,
   "Make final revisions and improvements".data,
   "Prepare supporting documentation".data,
   "Schedule follow-up meeting if needed".data,
   "Document findings and results".data,
   "Organize and structure materials".data,
   "Test and validate the approach".data]

/-- Python `round(x, 1)` (`src/utils/mock_ai.py:154`).  Ties are modelled
with round-half-up; the bounds proved about priority scores do not depend
on the tie-breaking convention. -/
def round1 (x : ℚ) : ℚ := ((round (10 * x) : ℤ) : ℚ) / 10

/-- The random draws consumed while synthesising one task:
`random.randint(5, 7)` for the title length, the index drawn by
`random.choice(duration_options)`, `random.randint(2, 4)` for the subtask
count, the permutation applied by `random.shuffle`, the value of
`random.uniform(40, 80)`, and the `uuid.uuid4()` string. -/
structure TaskRand where
  titlePick : ℕ
  durationPick : ℕ
  subtaskPick : ℕ
  shuffle : List (List Char) → List (List Char)
  basePriority : ℚ
  uuid : List Char

/-- The random draws of one `parse_journal_mock` call:
`random.randint(3, 5)` at `src/utils/mock_ai.py:57` and the per-task
draws, indexed by position in the selected-sentence list. -/
structure ParseRand where
  taskCountPick : ℕ
  forTask : ℕ → TaskRand

/-- One synthesised task record (`src/utils/mock_ai.py:157-165`). -/
structure TaskR where
  task_id : List Char
  title : List Char
  description : List Char
  estimated_duration : ℕ
  subtasks : List (List Char)
  status : List Char
  priority_score : ℚ

/-- Choice of subtask template pool (`src/utils/mock_ai.py:111-138`):
contextual templates over the first two key words when at least two key
words exist, the generic pool otherwise. -/
def subtaskPoolFor (words : List (List Char)) : List (List Char) :=
  if 2 ≤ (keyWordsOf words).length then
    contextualTemplates (joinWords ((keyWordsOf words).take 2))
  else genericTemplates

/-- Priority computation (`src/utils/mock_ai.py:147-154`):
`round(min(80, base + (duration - 30) / 90 * 10), 1)`. -/
def priorityScoreFor (base : ℚ) (estimated_duration : ℕ) : ℚ :=
  round1 (min 80 (base + ((estimated_duration : ℚ) - 30) / 90 * 10))

/-- The per-sentence body of the loop at `src/utils/mock_ai.py:71-167`.
`durationOptions.getD _ 30` models `random.choice(duration_options)`
(the draw is always in range; the default keeps the function total). -/
def synthesizeTask (sentence : List Char) (r : TaskRand) : TaskR :=
  { task_id := r.uuid
    title := mkTitle (wordsOf sentence) (min (wordsOf sentence).length r.titlePick)
    description := trimChars sentence
    estimated_duration := durationOptions.getD r.durationPick 30
    subtasks := (r.shuffle (subtaskPoolFor (wordsOf sentence))).take r.subtaskPick
    status := "pending".data
    priority_score := priorityScoreFor r.basePriority (durationOptions.getD r.durationPick 30) }

/-- `parse_journal_mock` (`src/utils/mock_ai.py:13-169`): guard against
blank input, segment, guard against an empty candidate list, select the
first `min(len(sentences), randint(3, 5))` statements, synthesise one task
per statement. -/
def parse_journal_mock (journal_text : List Char) (r : ParseRand) : List TaskR :=
  if trimChars journal_text = [] then []
  else
    let sentences := sentencesOf journal_text
    if sentences = [] then []
    else
      let num_tasks := min sentences.length r.taskCountPick
      let selected_sentences := sentences.take num_tasks
      selected_sentences.enum.map (fun p => synthesizeTask p.2 (r.forTask p.1))

/-! ### Supporting lemmas about the decomposition engine -/

/-- A stripped string is empty exactly when every character was
whitespace. -/
theorem trimChars_eq_nil_iff {cs : List Char} :
    trimChars cs = [] ↔ ∀ c ∈ cs, c.isWhitespace = true := by
  unfold trimChars
  rw [List.reverse_eq_nil_iff, List.dropWhile_eq_nil_iff]
  constructor
  · intro h c hc
    rw [← List.takeWhile_append_dropWhile (p := Char.isWhitespace) (l := cs)] at hc
    rcases List.mem_append.mp hc with h1 | h2
    · exact List.mem_takeWhile_imp h1
    · exact h c (List.mem_reverse.mpr h2)
  · intro h c hc
    exact h c ((List.dropWhile_sublist Char.isWhitespace).subset (List.mem_reverse.mp hc))

/-- Every character of a `splitOnP` piece is a character of the original
list. -/
theorem mem_of_mem_splitOnP {α : Type} {p : α → Bool} :
    ∀ {l s : List α}, s ∈ l.splitOnP p → ∀ {c}, c ∈ s → c ∈ l := by
  intro l
  induction l with
  | nil =>
    intro s hs c hc
    rw [List.splitOnP_nil, List.mem_singleton] at hs
    subst hs
    simp at hc
  | cons a l ih =>
    intro s hs c hc
    rw [List.splitOnP_cons] at hs
    by_cases hpa : p a
    · rw [if_pos hpa] at hs
      rcases List.mem_cons.mp hs with rfl | hs'
      · simp at hc
      · exact List.mem_cons_of_mem a (ih hs' hc)
    · rw [if_neg hpa] at hs
      obtain ⟨hd, tl, heq⟩ : ∃ hd tl, l.splitOnP p = hd :: tl := by
        cases h : l.splitOnP p with
        | nil => exact absurd h (List.splitOnP_ne_nil p l)
        | cons hd tl => exact ⟨hd, tl, rfl⟩
      rw [heq, List.modifyHead_cons] at hs
      rcases List.mem_cons.mp hs with rfl | hs'
      · rcases List.mem_cons.mp hc with rfl | hc2
        · exact List.mem_cons_self _ _
        · exact List.mem_cons_of_mem a (ih (heq ▸ List.mem_cons_self hd tl) hc2)
      · exact List.mem_cons_of_mem a (ih (heq ▸ List.mem_cons_of_mem hd hs') hc)

/-- `List.getD` stays inside the list when the fallback is an element. -/
theorem getD_mem {α : Type} {l : List α} {n : ℕ} {d : α} (hd : d ∈ l) :
    l.getD n d ∈ l := by
  rw [List.getD_eq_getElem?_getD]
  cases h : l[n]? with
  | none => simpa [h] using hd
  | some a => simpa [h] using List.getElem?_mem h

/-- Bounds on the modelled `round(x, 1)`. -/
theorem round1_bounds {x : ℚ} (h1 : 40 ≤ x) (h2 : x ≤ 80) :
    40 ≤ round1 x ∧ round1 x ≤ 80 := by
  have hlo : (400 : ℤ) ≤ round (10 * x) := by
    rw [round_eq, Int.le_floor]
    push_cast
    linarith
  have hhi : round (10 * x) ≤ (800 : ℤ) := by
    rw [round_eq]
    have h801 : (10 : ℚ) * x + 1 / 2 < ((801 : ℤ) : ℚ) := by push_cast; linarith
    have := Int.floor_lt.mpr h801
    omega
  have h400 : (400 : ℚ) ≤ ((round (10 * x) : ℤ) : ℚ) := by exact_mod_cast hlo
  have h800 : ((round (10 * x) : ℤ) : ℚ) ≤ 800 := by exact_mod_cast hhi
  unfold round1
  constructor <;> linarith

/-- The generic subtask pool has no duplicates. -/
theorem genericTemplates_nodup : genericTemplates.Nodup := by decide

/-- The contextual subtask pool has no duplicates, whatever the context:
the fixed stems are pairwise distinct and appending the same context
preserves distinctness. -/
theorem contextualTemplates_nodup (context : List Char) :
    (contextualTemplates context).Nodup := by
  have hstems : contextualSubtaskStems.Nodup := by decide
  exact hstems.map (List.append_left_injective context)

/-- Either subtask pool has no duplicates. -/
theorem subtaskPoolFor_nodup (words : List (List Char)) :
    (subtaskPoolFor words).Nodup := by
  unfold subtaskPoolFor
  split
  · exact contextualTemplates_nodup _
  · exact genericTemplates_nodup

/-- Either subtask pool holds at least 8 templates. -/
theorem subtaskPoolFor_length (words : List (List Char)) :
    8 ≤ (subtaskPoolFor words).length := by
  unfold subtaskPoolFor
  split
  · simp [contextualTemplates, contextualSubtaskStems]
  · simp [genericTemplates]

/-- A drawn duration is always one of the six options. -/
theorem duration_mem (n : ℕ) : durationOptions.getD n 30 ∈ durationOptions :=
  getD_mem (by decide)

/-- Field bounds of a synthesised task, for any sentence and any random
draw within the ranges used by `parse_journal_mock`. -/
theorem synthesizeTask_props (s : List Char) (τ : TaskRand)
    (hsub : 2 ≤ τ.subtaskPick ∧ τ.subtaskPick ≤ 4)
    (hbase : 40 ≤ τ.basePriority ∧ τ.basePriority ≤ 80)
    (hshuf : ∀ l : List (List Char), List.Perm (τ.shuffle l) l) :
    (synthesizeTask s τ).estimated_duration ∈ durationOptions ∧
    2 ≤ (synthesizeTask s τ).subtasks.length ∧
    (synthesizeTask s τ).subtasks.length ≤ 4 ∧
    (synthesizeTask s τ).subtasks.Nodup ∧
    (synthesizeTask s τ).status = "pending".data ∧
    40 ≤ (synthesizeTask s τ).priority_score ∧
    (synthesizeTask s τ).priority_score ≤ 80 := by
  obtain ⟨hs2, hs4⟩ := hsub
  obtain ⟨hb1, hb2⟩ := hbase
  have hperm := hshuf (subtaskPoolFor (wordsOf s))
  have hlen : (τ.shuffle (subtaskPoolFor (wordsOf s))).length
      = (subtaskPoolFor (wordsOf s)).length := hperm.length_eq
  have hpool := subtaskPoolFor_length (wordsOf s)
  have hsublen : ((τ.shuffle (subtaskPoolFor (wordsOf s))).take τ.subtaskPick).length
      = τ.subtaskPick := by
    rw [List.length_take, hlen]
    omega
  have hnodup : ((τ.shuffle (subtaskPoolFor (wordsOf s))).take τ.subtaskPick).Nodup :=
    (hperm.nodup_iff.mpr (subtaskPoolFor_nodup (wordsOf s))).sublist
      (List.take_sublist _ _)
  have hdur := duration_mem τ.durationPick
  have hdur30 : (30 : ℚ) ≤ ((durationOptions.getD τ.durationPick 30 : ℕ) : ℚ) := by
    have : ∀ d ∈ durationOptions, 30 ≤ d := by decide
    exact_mod_cast this _ hdur
  have hadj : (0 : ℚ) ≤ (((durationOptions.getD τ.durationPick 30 : ℕ) : ℚ) - 30) / 90 * 10 := by
    have : (0 : ℚ) ≤ ((durationOptions.getD τ.durationPick 30 : ℕ) : ℚ) - 30 := by linarith
    positivity
  have hscore := round1_bounds
    (x := min 80 (τ.basePriority + (((durationOptions.getD τ.durationPick 30 : ℕ) : ℚ) - 30) / 90 * 10))
    (le_min (by norm_num) (by linarith))
    (min_le_left _ _)
  have h2le : 2 ≤ ((τ.shuffle (subtaskPoolFor (wordsOf s))).take τ.subtaskPick).length := by
    rw [hsublen]; exact hs2
  have h4ge : ((τ.shuffle (subtaskPoolFor (wordsOf s))).take τ.subtaskPick).length ≤ 4 := by
    rw [hsublen]; exact hs4
  exact ⟨hdur, h2le, h4ge, hnodup, rfl, hscore.1, hscore.2⟩

/-- A fixed random oracle used by concrete witness evaluations: title
length 5, duration index 0, 2 subtasks, identity shuffle, base priority
50. -/
def sampleTaskRand : TaskRand :=
  { titlePick := 5
    durationPick := 0
    subtaskPick := 2
    shuffle := fun l => l
    basePriority := 50
    uuid := "t".data }

/-- A fixed journal-level random oracle for witnesses. -/
def sampleRand : ParseRand :=
  { taskCountPick := 3, forTask := fun _ => sampleTaskRand }

/-- C9: blank input (empty after stripping) yields the empty task list,
and so does input whose every piece has stripped length at most 10; no
error path exists. -/
theorem decompose_blank_or_short_input (text : List Char) (r : ParseRand) :
    (trimChars text = [] → parse_journal_mock text r = []) ∧
    ((∀ s ∈ (text.splitOnP isSentenceDelim).map trimChars, s.length ≤ 10) →
      parse_journal_mock text r = []) := by
  constructor
  · intro h
    simp [parse_journal_mock, h]
  · intro h
    have hsent : sentencesOf text = [] := by
      unfold sentencesOf
      rw [List.filter_eq_nil_iff]
      intro s hs
      simp only [decide_eq_true_eq, not_lt]
      exact h s hs
    by_cases htrim : trimChars text = []
    · simp [parse_journal_mock, htrim]
    · simp [parse_journal_mock, htrim, hsent]

/-- C9 witness: whitespace-only input and an input whose statements are
all at most 10 characters long both produce the empty task list. -/
theorem decompose_blank_or_short_input_witness :
    parse_journal_mock "   ".data sampleRand = [] ∧
    parse_journal_mock "Hi. No.".data sampleRand = [] :=
  ⟨(decompose_blank_or_short_input "   ".data sampleRand).1 (by decide),
   (decompose_blank_or_short_input "Hi. No.".data sampleRand).2 (by decide)⟩

/-- C1: whenever some piece of the journal text has stripped length above
10, `parse_journal_mock` returns between 1 and 5 tasks, never more than
the number of surviving candidate statements, and every task has a
duration from the fixed pool, 2 to 4 pairwise distinct subtasks, status
`pending`, and a priority score in `[40, 80]`. -/
theorem decompose_task_bounds (text : List Char) (r : ParseRand)
    (hlo : 3 ≤ r.taskCountPick) (hhi : r.taskCountPick ≤ 5)
    (hsub : ∀ i, 2 ≤ (r.forTask i).subtaskPick ∧ (r.forTask i).subtaskPick ≤ 4)
    (hbase : ∀ i, 40 ≤ (r.forTask i).basePriority ∧ (r.forTask i).basePriority ≤ 80)
    (hshuf : ∀ i (l : List (List Char)), List.Perm ((r.forTask i).shuffle l) l)
    (hex : ∃ s ∈ (text.splitOnP isSentenceDelim).map trimChars, 10 < s.length) :
    1 ≤ (parse_journal_mock text r).length ∧
    (parse_journal_mock text r).length ≤ 5 ∧
    (parse_journal_mock text r).length ≤ (sentencesOf text).length ∧
    ∀ t ∈ parse_journal_mock text r,
      t.estimated_duration ∈ durationOptions ∧
      2 ≤ t.subtasks.length ∧
      t.subtasks.length ≤ 4 ∧
      t.subtasks.Nodup ∧
      t.status = "pending".data ∧
      40 ≤ t.priority_score ∧
      t.priority_score ≤ 80 := by
  obtain ⟨s, hs_mem, hs_len⟩ := hex
  have htrim : trimChars text ≠ [] := by
    intro h0
    have hall : ∀ c ∈ text, c.isWhitespace = true := trimChars_eq_nil_iff.mp h0
    obtain ⟨piece, hpiece, rfl⟩ := List.mem_map.mp hs_mem
    have hallp : ∀ c ∈ piece, c.isWhitespace = true :=
      fun c hc => hall c (mem_of_mem_splitOnP hpiece hc)
    have hnil : trimChars piece = [] := trimChars_eq_nil_iff.mpr hallp
    rw [hnil] at hs_len
    simp at hs_len
  have hmem_sent : s ∈ sentencesOf text := by
    unfold sentencesOf
    rw [List.mem_filter]
    exact ⟨hs_mem, by simpa using hs_len⟩
  have hsent_ne : sentencesOf text ≠ [] := List.ne_nil_of_mem hmem_sent
  have hsent_pos : 0 < (sentencesOf text).length := List.length_pos.mpr hsent_ne
  have hparse : parse_journal_mock text r =
      (((sentencesOf text).take (min (sentencesOf text).length r.taskCountPick)).enum).map
        (fun p => synthesizeTask p.2 (r.forTask p.1)) := by
    simp [parse_journal_mock, htrim, hsent_ne]
  have hlen : (parse_journal_mock text r).length
      = min (sentencesOf text).length r.taskCountPick := by
    rw [hparse, List.length_map, List.enum_length, List.length_take]
    omega
  refine ⟨by rw [hlen]; omega, by rw [hlen]; omega, by rw [hlen]; omega, ?_⟩
  intro t ht
  rw [hparse] at ht
  obtain ⟨⟨i, s'⟩, _, rfl⟩ := List.mem_map.mp ht
  exact synthesizeTask_props s' (r.forTask i) (hsub i) (hbase i) (hshuf i)

/-- C1 witness: a three-sentence journal entry with the sample oracle
yields between 1 and 5 tasks, bounded by the candidate count. -/
theorem decompose_task_bounds_witness :
    1 ≤ (parse_journal_mock
      "I need to prepare slides for my presentation. Review the code implementation today. Write documentation for the project.".data
      sampleRand).length ∧
    (parse_journal_mock
      "I need to prepare slides for my presentation. Review the code implementation today. Write documentation for the project.".data
      sampleRand).length ≤ 5 ∧
    (parse_journal_mock
      "I need to prepare slides for my presentation. Review the code implementation today. Write documentation for the project.".data
      sampleRand).length ≤ (sentencesOf
      "I need to prepare slides for my presentation. Review the code implementation today. Write documentation for the project.".data).length := by
  have h := decompose_task_bounds
    "I need to prepare slides for my presentation. Review the code implementation today. Write documentation for the project.".data
    sampleRand (by decide) (by decide)
    (fun i => ⟨(by norm_num : (2 : ℕ) ≤ 2), (by norm_num : (2 : ℕ) ≤ 4)⟩)
    (fun i => ⟨(by norm_num : (40 : ℚ) ≤ 50), (by norm_num : (50 : ℚ) ≤ 80)⟩)
    (fun i l => List.Perm.refl l)
    (by decide)
  exact ⟨h.1, h.2.1, h.2.2.1⟩

/-! ### Title synthesis lemmas -/

/-- Joining a nonempty list of nonempty words yields a nonempty string. -/
theorem joinWords_ne_nil (ws : List (List Char)) (h1 : ws ≠ [])
    (h2 : ∀ w ∈ ws, w ≠ []) : joinWords ws ≠ [] := by
  match ws with
  | [] => exact absurd rfl h1
  | [w] => simpa [joinWords] using h2 w (by simp)
  | w :: v :: rest =>
    intro h
    exact absurd (List.append_eq_nil.mp h).2 (List.cons_ne_nil _ _)

/-- The last character of a join of nonempty, whitespace-free words is not
whitespace. -/
theorem joinWords_getLast (ws : List (List Char)) (h1 : ws ≠ [])
    (h2 : ∀ w ∈ ws, w ≠ [] ∧ ∀ c ∈ w, c.isWhitespace = false) :
    ∃ c, (joinWords ws).getLast? = some c ∧ c.isWhitespace = false := by
  induction ws with
  | nil => exact absurd rfl h1
  | cons w ws ih =>
    cases ws with
    | nil =>
      obtain ⟨hw, hwc⟩ := h2 w (List.mem_cons_self _ _)
      refine ⟨w.getLast hw, ?_, hwc _ (List.getLast_mem hw)⟩
      simpa [joinWords] using List.getLast?_eq_getLast w hw
    | cons v rest =>
      obtain ⟨c, hc, hcw⟩ := ih (List.cons_ne_nil _ _)
        (fun u hu => h2 u (List.mem_cons_of_mem _ hu))
      refine ⟨c, ?_, hcw⟩
      have hjne : joinWords (v :: rest) ≠ [] :=
        joinWords_ne_nil _ (List.cons_ne_nil _ _)
          (fun u hu => (h2 u (List.mem_cons_of_mem _ hu)).1)
      rw [show joinWords (w :: v :: rest) = w ++ ' ' :: joinWords (v :: rest) from rfl]
      rw [List.getLast?_append]
      have hcons : (' ' :: joinWords (v :: rest)).getLast? = (joinWords (v :: rest)).getLast? := by
        cases hj : joinWords (v :: rest) with
        | nil => exact absurd hj hjne
        | cons a l => exact List.getLast?_cons_cons
      rw [hcons, hc]
      rfl

/-- A successful filler match guarantees a whitespace character right
after the matched phrase. -/
theorem fillerMatch_drop {f cs : List Char} (h : fillerMatch f cs = true) :
    ∃ d rest, cs.drop f.length = d :: rest ∧ d.isWhitespace = true := by
  unfold fillerMatch at h
  rw [Bool.and_eq_true] at h
  obtain ⟨-, h2⟩ := h
  cases hd : cs.drop f.length with
  | nil => rw [hd] at h2; exact absurd h2 (by simp)
  | cons d rest => rw [hd] at h2; exact ⟨d, rest, rfl, h2⟩

/-- Dropping whitespace inside a string whose last character is not
whitespace cannot consume everything. -/
theorem dropWhile_drop_ne_nil {title : List Char} {c : Char}
    (hlast : title.getLast? = some c) (hc : c.isWhitespace = false)
    {k : ℕ} (hk : title.drop k ≠ []) :
    (title.drop k).dropWhile Char.isWhitespace ≠ [] := by
  intro h0
  have hall : ∀ x ∈ title.drop k, x.isWhitespace = true :=
    List.dropWhile_eq_nil_iff.mp h0
  have hlast2 : (title.drop k).getLast? = some c := by
    conv at hlast => rw [← List.take_append_drop k title]
    rw [List.getLast?_append] at hlast
    cases hj : (title.drop k).getLast? with
    | none =>
      have hsome := List.getLast?_isSome.mpr hk
      rw [hj] at hsome
      simp at hsome
    | some val =>
      rw [hj] at hlast
      simpa using hlast
  have hmem := List.mem_of_getLast?_eq_some hlast2
  rw [hall c hmem] at hc
  exact absurd hc (by simp)

/-- When no filler alternative matches, the substitution is the
identity. -/
theorem stripLeadingFiller_no_match (fs : List (List Char)) (cs : List Char)
    (h : ∀ f ∈ fs, fillerMatch f cs = false) :
    stripLeadingFiller fs cs = cs := by
  induction fs with
  | nil => rfl
  | cons f fs ih =>
    have hf := h f (List.mem_cons_self _ _)
    simp [stripLeadingFiller, hf,
      ih (fun g hg => h g (List.mem_cons_of_mem _ hg))]

/-- When some filler alternative matches, the substitution removes one of
the matching alternatives together with the following whitespace run. -/
theorem stripLeadingFiller_match (fs : List (List Char)) (cs : List Char)
    (h : ∃ f ∈ fs, fillerMatch f cs = true) :
    ∃ f ∈ fs, fillerMatch f cs = true ∧
      stripLeadingFiller fs cs = (cs.drop f.length).dropWhile Char.isWhitespace := by
  induction fs with
  | nil => simp at h
  | cons f fs ih =>
    by_cases hf : fillerMatch f cs = true
    · exact ⟨f, List.mem_cons_self _ _, hf, by simp [stripLeadingFiller, hf]⟩
    · obtain ⟨g, hg, hgm⟩ := h
      rcases List.mem_cons.mp hg with rfl | hg'
      · exact absurd hgm hf
      · obtain ⟨g', hg'', hgm', heq⟩ := ih ⟨g, hg', hgm⟩
        refine ⟨g', List.mem_cons_of_mem _ hg'', hgm', ?_⟩
        rw [← heq]
        simp [stripLeadingFiller, hf]

/-- The truncation marker is a suffix after a forced append. -/
theorem appendEllipsisIf_suffix (t : List Char) :
    ellipsisMarker.isSuffixOf (appendEllipsisIf true t) = true := by
  unfold appendEllipsisIf
  by_cases h : ellipsisMarker.isSuffixOf t
  · simp [h]
  · simp only [Bool.not_eq_true] at h
    simp [h, List.isSuffixOf_iff_suffix]

/-- C6: for a nonempty list of nonempty whitespace-free words (the shape
`sentence.split()` produces) and a drawn count `p ∈ [5, 7]`, the
synthesised title is nonempty; a truncation marker is appended whenever
fewer words than available were used; the first character is the
uppercased first character of the remainder; and the filler substitution
either leaves the joined words unchanged (no alternative matches) or
removes exactly one matching leading filler phrase together with the
whitespace run after it. -/
theorem title_synthesis (words : List (List Char)) (p : ℕ)
    (hw : words ≠ [])
    (hwords : ∀ w ∈ words, w ≠ [] ∧ ∀ c ∈ w, c.isWhitespace = false)
    (hp5 : 5 ≤ p) (hp7 : p ≤ 7) :
    mkTitle words (min words.length p) ≠ [] ∧
    (min words.length p < words.length →
      ellipsisMarker.isSuffixOf (mkTitle words (min words.length p)) = true) ∧
    (∃ (c : Char) (rest : List Char),
      mkTitle words (min words.length p) = c.toUpper :: rest) ∧
    ((∀ f ∈ fillerPhrases,
        fillerMatch f (joinWords (words.take (min words.length p))) = false) →
      mkTitle words (min words.length p) =
        appendEllipsisIf (decide (min words.length p < words.length))
          (capitalizeChars (joinWords (words.take (min words.length p))))) ∧
    ((∃ f ∈ fillerPhrases,
        fillerMatch f (joinWords (words.take (min words.length p))) = true) →
      ∃ f ∈ fillerPhrases,
        fillerMatch f (joinWords (words.take (min words.length p))) = true ∧
        mkTitle words (min words.length p) =
          appendEllipsisIf (decide (min words.length p < words.length))
            (capitalizeChars
              (((joinWords (words.take (min words.length p))).drop f.length).dropWhile
                Char.isWhitespace))) := by
  have hwpos : 0 < words.length := List.length_pos.mpr hw
  set n := min words.length p with hn
  have htake_pos : 0 < (words.take n).length := by
    rw [List.length_take]
    omega
  have htake_ne : words.take n ≠ [] := List.length_pos.mp htake_pos
  have htkw : ∀ w ∈ words.take n, w ≠ [] ∧ ∀ c ∈ w, c.isWhitespace = false :=
    fun w hw' => hwords w (List.take_subset _ _ hw')
  have htitle_ne : joinWords (words.take n) ≠ [] :=
    joinWords_ne_nil _ htake_ne (fun w hw' => (htkw w hw').1)
  obtain ⟨c0, hlast, hc0⟩ := joinWords_getLast (words.take n) htake_ne htkw
  have hcore : stripLeadingFiller fillerPhrases (joinWords (words.take n)) ≠ [] := by
    by_cases hm : ∃ f ∈ fillerPhrases, fillerMatch f (joinWords (words.take n)) = true
    · obtain ⟨f, hf, hfm, heq⟩ := stripLeadingFiller_match _ _ hm
      rw [heq]
      obtain ⟨d, rest, hdrop, hdws⟩ := fillerMatch_drop hfm
      exact dropWhile_drop_ne_nil hlast hc0 (by rw [hdrop]; exact List.cons_ne_nil _ _)
    · push_neg at hm
      have hm' : ∀ f ∈ fillerPhrases, fillerMatch f (joinWords (words.take n)) = false :=
        fun f hf => Bool.eq_false_iff.mpr (hm f hf)
      rw [stripLeadingFiller_no_match _ _ hm']
      exact htitle_ne
  obtain ⟨ch, chrest, hcheq⟩ :
      ∃ ch chrest, stripLeadingFiller fillerPhrases (joinWords (words.take n)) = ch :: chrest := by
    cases h : stripLeadingFiller fillerPhrases (joinWords (words.take n)) with
    | nil => exact absurd h hcore
    | cons a l => exact ⟨a, l, rfl⟩
  have hmk : mkTitle words n = appendEllipsisIf (decide (n < words.length))
      (capitalizeChars (stripLeadingFiller fillerPhrases (joinWords (words.take n)))) := rfl
  have hne : ∀ (b : Bool) (x : Char) (xs : List Char), appendEllipsisIf b (x :: xs) ≠ [] := by
    intro b x xs
    unfold appendEllipsisIf
    split <;> simp
  have hhead : ∀ (b : Bool) (x : Char) (xs : List Char),
      ∃ ys, appendEllipsisIf b (x :: xs) = x :: ys := by
    intro b x xs
    unfold appendEllipsisIf
    split
    · exact ⟨xs ++ ellipsisMarker, rfl⟩
    · exact ⟨xs, rfl⟩
  refine ⟨?_, ?_, ?_, ?_, ?_⟩
  · rw [hmk, hcheq]
    exact hne _ _ _
  · intro hlt
    rw [hmk, decide_eq_true hlt]
    exact appendEllipsisIf_suffix _
  · obtain ⟨ys, hys⟩ := hhead (decide (n < words.length)) ch.toUpper chrest
    refine ⟨ch, ys, ?_⟩
    rw [hmk, hcheq]
    exact hys
  · intro hm'
    rw [hmk, stripLeadingFiller_no_match _ _ hm']
  · intro hm
    obtain ⟨f, hf, hfm, heq⟩ := stripLeadingFiller_match _ _ hm
    exact ⟨f, hf, hfm, by rw [hmk, heq]⟩

/-- The words of the sentence used by the C6 witness. -/
def sampleTitleWords : List (List Char) :=
  ["I".data, "need".data, "to".data, "prepare".data, "slides".data,
   "for".data, "my".data, "presentation".data]

/-- C6 witness: with a drawn count of 5 on an 8-word statement starting
with a filler phrase, the synthesised title is nonempty and carries the
truncation marker. -/
theorem title_synthesis_witness :
    mkTitle sampleTitleWords (min sampleTitleWords.length 5) ≠ [] ∧
    ellipsisMarker.isSuffixOf (mkTitle sampleTitleWords (min sampleTitleWords.length 5)) = true := by
  have h := title_synthesis sampleTitleWords 5 (by decide) (by decide) (by decide) (by decide)
  exact ⟨h.1, h.2.1 (by decide)⟩

/-! ### Coach messenger (`get_coach_message_mock`, `src/utils/mock_ai.py:172-269`) -/

/-- The `session_start` template pool of `get_coach_message_mock`. -/
def sessionStartTemplates : List (List Char) :=
  ["Let's crush this {duration}-minute session on {task}! You've got this! ðŸ’ª".data,
   "Ready to focus on {task}? Let's make these {duration} minutes count!".data,
   "Time to dive deep into {task}. Stay focused for {duration} minutes!".data,
   "Starting your {duration}-minute focus session on {task}. Let's go! ðŸš€".data,
   "Focus mode activated! {duration} minutes of pure productivity on {task}.".data,
   "Great choice working on {task}! Let's make progress in {duration} minutes.".data,
   "You've dedicated {duration} minutes to {task}. Let's make them matter!".data,
   "{duration} minutes of focused work ahead. {task} won't know what hit it! âš¡".data,
   "Ready, set, focus! {duration} minutes on {task} starts now.".data,
   "Block out distractions. {duration} minutes of deep work on {task} begins!".data]

/-- The `halfway` template pool of `get_coach_message_mock`. -/
def halfwayTemplates : List (List Char) :=
  ["You're halfway there! Keep that momentum going! ðŸ’ª".data,
   "Great progress on {task}! You've got this! ðŸŒŸ".data,
   "50% complete! Stay focused and finish strong!".data,
   "Awesome work so far! Keep pushing through on {task}!".data,
   "You're doing great! Halfway through your focus session! ðŸŽ¯".data,
   "Strong work! Stay in the zone for the second half!".data,
   "Excellent progress! {task} is coming together nicely!".data,
   "You're crushing it! Keep that focus for the rest!".data,
   "Halfway done with {task}! Maintain that focus! ðŸ”¥".data,
   "Great pace! Stay strong for the final half!".data]

/-- The `break` template pool of `get_coach_message_mock`. -/
def breakTemplates : List (List Char) :=
  ["Time for a break! Stand up, stretch, and recharge. You've earned it! â˜•".data,
   "Great work! Take 15 minutes to rest and rejuvenate. ðŸŒŸ".data,
   "Break time! Grab some water and give your eyes a rest. ðŸ’§".data,
   "Well done! Step away from your screen and take a mindful break. ðŸ§˜".data,
   "Excellent session! Take a walk and let your mind wander. ðŸš¶".data,
   "You've earned a break! Stretch, hydrate, and prepare for the next session. ðŸ’ª".data,
   "Time to recharge! Take a short walk or do some light stretching. ðŸŒ¿".data,
   "Break time! Do something completely different for 15 minutes. ðŸŽ¨".data,
   "Great focus! Now rest your mind with a proper break. â˜€ï¸".data,
   "Session complete! Take time to breathe and reset. ðŸŒŠ".data]

/-- The `completion` template pool of `get_coach_message_mock`. -/
def completionTemplates : List (List Char) :=
  ["Excellent work! You've successfully completed {task}! ðŸŽ‰".data,
   "Task completed! Another win in the books! You're on fire! ðŸ”¥".data,
   "Boom! {task} is done! Great job staying focused! â­".data,
   "Mission accomplished! {task} is checked off your list! âœ…".data,
   "Fantastic! You crushed {task}! Keep up the momentum! ðŸš€".data,
   "Well done! {task} is complete! You're making great progress! ðŸ’¯".data,
   "Success! Another task conquered! You're unstoppable! ðŸ’ª".data,
   "{task} is finished! Take a moment to celebrate your achievement! ðŸŽŠ".data,
   "Outstanding work on {task}! You stayed focused and delivered! ðŸŒŸ".data,
   "Complete! {task} is done and dusted! Keep riding this wave! ðŸ„".data]

/-- The fallback template for unrecognised message types. -/
def defaultCoachTemplates : List (List Char) :=
  ["Keep up the great work! You're doing awesome! ðŸŒŸ".data]

/-- The dictionary lookup `templates.get(message_type, [...])`
(`src/utils/mock_ai.py:203-260`). -/
def coachTemplatesFor (message_type : List Char) : List (List Char) :=
  if message_type = "session_start".data then sessionStartTemplates
  else if message_type = "halfway".data then halfwayTemplates
  else if message_type = "break".data then breakTemplates
  else if message_type = "completion".data then completionTemplates
  else defaultCoachTemplates

/-- Fuel-indexed scan implementing Python `str.replace`: each step either
copies one character or substitutes one non-overlapping occurrence of the
pattern, left to right. -/
def replaceAllGo (pat repl : List Char) : ℕ → List Char → List Char
  | _, [] => []
  | 0, cs => cs
  | fuel + 1, c :: cs =>
    if pat ≠ [] ∧ pat.isPrefixOf (c :: cs) then
      repl ++ replaceAllGo pat repl fuel (cs.drop (pat.length - 1))
    else
      c :: replaceAllGo pat repl fuel cs

/-- Python `str.replace(pat, repl)` for a non-empty pattern. -/
def replaceAll (pat repl cs : List Char) : List Char :=
  replaceAllGo pat repl cs.length cs

/-- Decimal rendering of `str(duration)`. -/
def natToChars (n : ℕ) : List Char := (Nat.repr n).data

/-- `get_coach_message_mock` (`src/utils/mock_ai.py:172-269`) with the
`random.choice` draw modelled as an index into the template pool:
substitute `{task}` first, then `{duration}`, as at lines 266-267. -/
def get_coach_message_mock (message_type task_name : List Char) (duration : ℕ)
    (pick : ℕ) : List Char :=
  let message_templates := coachTemplatesFor message_type
  let message := message_templates.getD pick []
  replaceAll "{duration}".data (natToChars duration)
    (replaceAll "{task}".data task_name message)

/-- Substring test (Python `in` on strings), used to state the messenger
claims. -/
def containsSub (pat : List Char) : List Char → Bool
  | [] => pat.isEmpty
  | c :: rest => pat.isPrefixOf (c :: rest) || containsSub pat rest

/-- C7 counterexample: the completion template at index 1 contains no
`{task}` placeholder, so the message returned for that draw does not
contain the substituted task name `Write Report`. -/
theorem coach_completion_counterexample :
    containsSub "Write Report".data
      (get_coach_message_mock "completion".data "Write Report".data 60 1) = false := by
  decide

/-- C7 (amended): for every completion template draw, no literal `{task}`
or `{duration}` placeholder survives in the returned message, and whenever
the drawn template mentions the `{task}` placeholder the substituted task
name `Write Report` appears in the message. -/
theorem coach_completion_amended :
    ∀ pick, pick < completionTemplates.length →
      containsSub "{task}".data
        (get_coach_message_mock "completion".data "Write Report".data 60 pick) = false ∧
      containsSub "{duration}".data
        (get_coach_message_mock "completion".data "Write Report".data 60 pick) = false ∧
      (containsSub "{task}".data (completionTemplates.getD pick []) = true →
        containsSub "Write Report".data
          (get_coach_message_mock "completion".data "Write Report".data 60 pick) = true) := by
  decide

/-- C7 witness: the first completion template substitutes the task name
and leaves no placeholder behind. -/
theorem coach_completion_amended_witness :
    containsSub "{task}".data
      (get_coach_message_mock "completion".data "Write Report".data 60 0) = false ∧
    containsSub "{duration}".data
      (get_coach_message_mock "completion".data "Write Report".data 60 0) = false ∧
    containsSub "Write Report".data
      (get_coach_message_mock "completion".data "Write Report".data 60 0) = true := by
  have h := coach_completion_amended 0 (by decide)
  exact ⟨h.1, h.2.1, h.2.2 (by decide)⟩
